import Mathlib

/-!
Shallow embedding of the investor-statements authorization logic of the
Brrrr-Loans portal.

Two server-rendered pages are modelled:

* `investorStatementsPage` — `src/app/(dashboard)/dashboard/investor-statements/page.tsx`
  (`InvestorStatementsPage`): authenticates the user, looks up the contact
  row (`id, contact_types_id`) and the profile row (`role`), decides
  investor/admin status, optionally fetches organization memberships, and
  renders one or more `InvestorStatementsList` components, each
  characterized by the `investorId` prop passed to it (`none` = no filter,
  i.e. an unrestricted list).

* `investorStatementsAdminPage` — the admin statements page
  (`InvestorStatementsAdminPage`): authenticates, checks `role == "admin"`,
  and either redirects to `/dashboard` or renders the admin component.

The database is modelled as three read-only lookup functions keyed by the
authenticated identity id, mirroring the three Supabase queries the pages
issue (`contact` by `clerk_id`, `auth_user_profiles` by `id`,
`user_clerk_org_members` by `user_id`).  Nullable columns become `Option`.
-/

/-- An authenticated identity, as returned by `supabase.auth.getUser()`. -/
structure Identity where
  id : String
deriving DecidableEq, Repr

/-- The projection of a `contact` row fetched by the investor page:
`select("id, contact_types_id")`.  The classification column is nullable. -/
structure Contact where
  id : Nat
  contact_types_id : Option Int
deriving DecidableEq, Repr

/-- The projection of an `auth_user_profiles` row: `select("role")`.
The role column is nullable. -/
structure UserProfile where
  role : Option String
deriving DecidableEq, Repr

/-- A `user_clerk_org_members` row projected to `select("org_id")`. -/
structure OrgMembership where
  org_id : Nat
deriving DecidableEq, Repr

/-- The read-only row store the pages query, keyed by the identity id.
`.single()` queries yield at most one row (`Option`); the membership
query yields a list of rows. -/
structure Database where
  contactFor : String → Option Contact
  profileFor : String → Option UserProfile
  orgsFor : String → List OrgMembership

/-- The observable outcome of evaluating a page: a redirect to `/sign-in`,
a redirect to `/dashboard`, a rendered investor page carrying the
`investorId` prop of each `InvestorStatementsList` it mounts (in order;
`none` means the list is unrestricted), or the rendered admin component. -/
inductive PageResult where
  | redirectSignIn
  | redirectDashboard
  | render (lists : List (Option Nat))
  | renderAdmin
deriving DecidableEq, Repr

/-- `isInvestor = contactData?.contact_types_id === 12` (line 31 of the
investor page): an absent row or a null / different classification is
non-investor. -/
def isInvestorCheck (contactData : Option Contact) : Bool :=
  match contactData with
  | some c => c.contact_types_id == some 12
  | none => false

/-- `isAdmin = userData?.role === "admin"` (line 40 of the investor page,
line 30 of the admin page): an absent row or a null / different role is
non-admin. -/
def isAdminCheck (userData : Option UserProfile) : Bool :=
  match userData with
  | some p => p.role == some "admin"
  | none => false

/-- Embedding of `InvestorStatementsPage`.  Mirrors the source line by
line: sign-in redirect on missing user; contact and profile lookups;
dashboard redirect when neither investor nor admin; membership fetch only
for investors (`userOrgs` stays `none`, i.e. JS `null`, otherwise); then
the two JSX blocks, each contributing its `InvestorStatementsList`
elements by their `investorId` prop. -/
def investorStatementsPage (user : Option Identity) (db : Database) : PageResult :=
  match user with
  | none => .redirectSignIn
  | some u =>
    let contactData := db.contactFor u.id
    let isInvestor := isInvestorCheck contactData
    let userData := db.profileFor u.id
    let isAdmin := isAdminCheck userData
    if !isInvestor && !isAdmin then
      .redirectDashboard
    else
      let userOrgs : Option (List OrgMembership) :=
        if isInvestor then some (db.orgsFor u.id) else none
      let block1 : List (Option Nat) :=
        match userOrgs with
        | some orgs =>
          if orgs.length > 0 then [contactData.map Contact.id, none] else []
        | none => []
      let block2 : List (Option Nat) :=
        if userOrgs.isNone || (match userOrgs with
            | some orgs => orgs.length == 0
            | none => false) || isAdmin then
          [if isInvestor then contactData.map Contact.id else none]
        else []
      .render (block1 ++ block2)

/-- Embedding of `InvestorStatementsAdminPage`: sign-in redirect on
missing user; profile lookup; dashboard redirect unless
`role == "admin"`; otherwise render the admin component. -/
def investorStatementsAdminPage (user : Option Identity) (db : Database) : PageResult :=
  match user with
  | none => .redirectSignIn
  | some u =>
    let userData := db.profileFor u.id
    let isAdmin := isAdminCheck userData
    if !isAdmin then
      .redirectDashboard
    else
      .renderAdmin

/-! ### Characterization lemmas -/

/-- `isInvestorCheck` holds exactly when the contact row exists and its
classification column is 12. -/
theorem isInvestorCheck_eq_true_iff (o : Option Contact) :
    isInvestorCheck o = true ↔ ∃ c, o = some c ∧ c.contact_types_id = some 12 := by
  cases o with
  | none => simp [isInvestorCheck]
  | some c => simp [isInvestorCheck]

/-- `isAdminCheck` holds exactly when the profile row exists and its role
column is the string `"admin"`. -/
theorem isAdminCheck_eq_true_iff (p : Option UserProfile) :
    isAdminCheck p = true ↔ ∃ q, p = some q ∧ q.role = some "admin" := by
  cases p with
  | none => simp [isAdminCheck]
  | some q => simp [isAdminCheck]

/-- Closed form of the investor page for an authenticated user: the nested
conditionals and the two JSX blocks collapse to a five-way case split on
investor status, membership count, and admin status. -/
theorem investorStatementsPage_eq (u : Identity) (db : Database) :
    investorStatementsPage (some u) db =
      if isInvestorCheck (db.contactFor u.id) then
        if 0 < (db.orgsFor u.id).length then
          if isAdminCheck (db.profileFor u.id) then
            PageResult.render [(db.contactFor u.id).map Contact.id, none,
              (db.contactFor u.id).map Contact.id]
          else
            PageResult.render [(db.contactFor u.id).map Contact.id, none]
        else
          PageResult.render [(db.contactFor u.id).map Contact.id]
      else
        if isAdminCheck (db.profileFor u.id) then PageResult.render [none]
        else PageResult.redirectDashboard := by
  simp only [investorStatementsPage]
  cases hI : isInvestorCheck (db.contactFor u.id) <;>
  cases hA : isAdminCheck (db.profileFor u.id) <;>
  cases hO : db.orgsFor u.id <;>
  simp [hI, hA, hO]

/-! ### Concrete fixtures for witnesses and counterexamples -/

/-- A concrete authenticated identity. -/
def exIdentity : Identity := ⟨"user-1"⟩

/-- A store where the principal has contact classification 7 (non-investor)
and no profile row. -/
def exDbOutsider : Database :=
  ⟨fun _ => some ⟨1, some 7⟩, fun _ => none, fun _ => []⟩

/-- A store where the principal is an investor (classification 12, contact
id 5) with one organization membership and no profile row. -/
def exDbInvestorOrgs : Database :=
  ⟨fun _ => some ⟨5, some 12⟩, fun _ => none, fun _ => [⟨3⟩]⟩

/-- A store where the principal is an investor (contact id 5) with no
organization memberships and a null role. -/
def exDbInvestorNoOrgs : Database :=
  ⟨fun _ => some ⟨5, some 12⟩, fun _ => some ⟨none⟩, fun _ => []⟩

/-- A store where the principal is both an admin and an investor (contact
id 5) with no organization memberships. -/
def exDbAdminInvestor : Database :=
  ⟨fun _ => some ⟨5, some 12⟩, fun _ => some ⟨some "admin"⟩, fun _ => []⟩

/-- A store where the principal is an admin and not a contact at all. -/
def exDbAdmin : Database :=
  ⟨fun _ => none, fun _ => some ⟨some "admin"⟩, fun _ => []⟩

/-- A store keyed only at identity `"b"`, agreeing there with what
`exDbInvestorOrgs` returns everywhere. -/
def exDbKeyed : Database :=
  ⟨fun s => if s = "b" then some ⟨5, some 12⟩ else none,
   fun s => if s = "b" then none else some ⟨some "admin"⟩,
   fun s => if s = "b" then [⟨3⟩] else []⟩

/-! ### Claim theorems -/

/-- C1: a principal whose contact row is absent or not classified 12, and
whose profile row is absent or whose role is not `"admin"`, is denied the
investor page: the evaluation is a redirect to `/dashboard` and no list is
rendered. -/
theorem investor_page_denies_non_investor_non_admin (u : Identity) (db : Database)
    (hni : ¬ ∃ c, db.contactFor u.id = some c ∧ c.contact_types_id = some 12)
    (hna : ¬ ∃ p, db.profileFor u.id = some p ∧ p.role = some "admin") :
    investorStatementsPage (some u) db = PageResult.redirectDashboard := by
  have hI : isInvestorCheck (db.contactFor u.id) = false := by
    rw [Bool.eq_false_iff]
    intro h
    exact hni ((isInvestorCheck_eq_true_iff _).mp h)
  have hA : isAdminCheck (db.profileFor u.id) = false := by
    rw [Bool.eq_false_iff]
    intro h
    exact hna ((isAdminCheck_eq_true_iff _).mp h)
  rw [investorStatementsPage_eq, hI, hA]
  simp

/-- Witness for C1, instantiating the spec scenario `role=null,
contact_type_id=7` on the investor page. -/
theorem investor_page_denies_non_investor_non_admin_witness :
    investorStatementsPage (some exIdentity) exDbOutsider = PageResult.redirectDashboard :=
  investor_page_denies_non_investor_non_admin exIdentity exDbOutsider
    (by decide) (by decide)

/-- C2: the admin page renders (Allowed) exactly when the profile row
exists with role `"admin"`; in every other authenticated case it is a
redirect to `/dashboard` (Denied). -/
theorem admin_page_allowed_iff_admin_role (u : Identity) (db : Database) :
    (investorStatementsAdminPage (some u) db = PageResult.renderAdmin ↔
      ∃ p, db.profileFor u.id = some p ∧ p.role = some "admin") ∧
    (investorStatementsAdminPage (some u) db = PageResult.renderAdmin ∨
      investorStatementsAdminPage (some u) db = PageResult.redirectDashboard) := by
  simp only [investorStatementsAdminPage]
  rw [← isAdminCheck_eq_true_iff]
  cases hA : isAdminCheck (db.profileFor u.id) <;> simp [hA]

/-- C7: with no authenticated session, both pages redirect to `/sign-in`,
whatever the row store holds — no contact, profile, or membership lookup
can influence the outcome. -/
theorem unauthenticated_redirects_to_sign_in (db : Database) :
    investorStatementsPage none db = PageResult.redirectSignIn ∧
    investorStatementsAdminPage none db = PageResult.redirectSignIn :=
  ⟨rfl, rfl⟩

/-- C9: evaluation of the investor page depends only on the resolved
contact row, profile row, and membership snapshot — two evaluations with
equal resolved state (even for different identities over different
stores) produce the identical result. -/
theorem evaluation_deterministic (u1 u2 : Identity) (db1 db2 : Database)
    (hc : db1.contactFor u1.id = db2.contactFor u2.id)
    (hp : db1.profileFor u1.id = db2.profileFor u2.id)
    (ho : db1.orgsFor u1.id = db2.orgsFor u2.id) :
    investorStatementsPage (some u1) db1 = investorStatementsPage (some u2) db2 := by
  rw [investorStatementsPage_eq, investorStatementsPage_eq, hc, hp, ho]

/-- Witness for C9: identities `"a"` and `"b"` over two different stores
that agree on the resolved rows evaluate to the same result. -/
theorem evaluation_deterministic_witness :
    investorStatementsPage (some ⟨"a"⟩) exDbInvestorOrgs =
      investorStatementsPage (some ⟨"b"⟩) exDbKeyed :=
  evaluation_deterministic ⟨"a"⟩ ⟨"b"⟩ exDbInvestorOrgs exDbKeyed
    (by decide) (by decide) (by decide)

/-- C3: an investor principal (classification 12) with at least one
organization membership gets the combined page: the first rendered list is
filtered by the principal's contact id, the second is the organization
list rendered with no filter at all (unrestricted), and a third
contact-filtered list follows exactly when the principal is also an
admin. -/
theorem investor_with_memberships_combined_scope (u : Identity) (db : Database)
    (hinv : isInvestorCheck (db.contactFor u.id) = true)
    (horgs : 0 < (db.orgsFor u.id).length) :
    ∃ c, db.contactFor u.id = some c ∧
      investorStatementsPage (some u) db =
        PageResult.render ([some c.id, none] ++
          (if isAdminCheck (db.profileFor u.id) then [some c.id] else [])) := by
  obtain ⟨c, hc, -⟩ := (isInvestorCheck_eq_true_iff _).mp hinv
  rw [hc] at hinv
  refine ⟨c, hc, ?_⟩
  rw [investorStatementsPage_eq]
  cases hA : isAdminCheck (db.profileFor u.id) <;> simp [hinv, hc, horgs, hA]

/-- Witness for C3: a non-admin investor with one membership gets exactly
the contact-filtered list followed by the unfiltered list. -/
theorem investor_with_memberships_combined_scope_witness :
    ∃ c, exDbInvestorOrgs.contactFor exIdentity.id = some c ∧
      investorStatementsPage (some exIdentity) exDbInvestorOrgs =
        PageResult.render ([some c.id, none] ++
          (if isAdminCheck (exDbInvestorOrgs.profileFor exIdentity.id)
           then [some c.id] else [])) :=
  investor_with_memberships_combined_scope exIdentity exDbInvestorOrgs
    (by decide) (by decide)

/-- C4 counterexample: for a principal that is both admin and investor
(contact id 5) with zero memberships, the investor page renders the
contact-filtered list, not the unrestricted one — admin status does not
take precedence. -/
theorem admin_investor_no_orgs_not_unrestricted :
    isAdminCheck (exDbAdminInvestor.profileFor exIdentity.id) = true ∧
    isInvestorCheck (exDbAdminInvestor.contactFor exIdentity.id) = true ∧
    exDbAdminInvestor.orgsFor exIdentity.id = [] ∧
    investorStatementsPage (some exIdentity) exDbAdminInvestor =
      PageResult.render [some 5] ∧
    investorStatementsPage (some exIdentity) exDbAdminInvestor ≠
      PageResult.render [none] := by
  decide

/-- C4 amended: when a principal is both admin and investor and has zero
organization memberships, the investor branch takes precedence — the
scope is a single list filtered by the principal's contact id, not the
unrestricted list. -/
theorem admin_investor_no_orgs_by_investor (u : Identity) (db : Database)
    (hinv : isInvestorCheck (db.contactFor u.id) = true)
    (hadm : isAdminCheck (db.profileFor u.id) = true)
    (horgs : db.orgsFor u.id = []) :
    ∃ c, db.contactFor u.id = some c ∧
      investorStatementsPage (some u) db = PageResult.render [some c.id] := by
  obtain ⟨c, hc, -⟩ := (isInvestorCheck_eq_true_iff _).mp hinv
  rw [hc] at hinv
  refine ⟨c, hc, ?_⟩
  rw [investorStatementsPage_eq]
  simp [hinv, hc, horgs]

/-- Witness for the amended C4, at the concrete admin-and-investor
principal with no memberships. -/
theorem admin_investor_no_orgs_by_investor_witness :
    ∃ c, exDbAdminInvestor.contactFor exIdentity.id = some c ∧
      investorStatementsPage (some exIdentity) exDbAdminInvestor =
        PageResult.render [some c.id] :=
  admin_investor_no_orgs_by_investor exIdentity exDbAdminInvestor
    (by decide) (by decide) (by decide)

/-- C5: an investor principal that is not an admin and has zero
organization memberships gets exactly one rendered list, filtered by the
principal's contact id — no organizational and no unrestricted list. -/
theorem investor_no_memberships_exact_scope (u : Identity) (db : Database)
    (hinv : isInvestorCheck (db.contactFor u.id) = true)
    (hna : isAdminCheck (db.profileFor u.id) = false)
    (horgs : db.orgsFor u.id = []) :
    ∃ c, db.contactFor u.id = some c ∧
      investorStatementsPage (some u) db = PageResult.render [some c.id] := by
  obtain ⟨c, hc, -⟩ := (isInvestorCheck_eq_true_iff _).mp hinv
  rw [hc] at hinv
  refine ⟨c, hc, ?_⟩
  rw [investorStatementsPage_eq]
  simp [hinv, hc, horgs]

/-- Witness for C5, instantiating the spec scenario `role=null,
contact_type_id=12, memberships=[]`. -/
theorem investor_no_memberships_exact_scope_witness :
    ∃ c, exDbInvestorNoOrgs.contactFor exIdentity.id = some c ∧
      investorStatementsPage (some exIdentity) exDbInvestorNoOrgs =
        PageResult.render [some c.id] :=
  investor_no_memberships_exact_scope exIdentity exDbInvestorNoOrgs
    (by decide) (by decide) (by decide)

/-- Auxiliary: a `some`-valued `investorId` prop equal to the mapped
contact id forces the contact row to exist and fixes the id. -/
theorem some_eq_map_contact_id (i : Nat) (o : Option Contact)
    (h : some i = o.map Contact.id) : ∃ c, o = some c ∧ i = c.id := by
  cases o with
  | none => simp at h
  | some c => exact ⟨c, rfl, by simpa using h⟩

/-- C6 counterexample: an admin principal who is also an investor with
zero memberships gets the admin page rendered, but the investor page
renders a single contact-filtered list containing no unrestricted entry —
neither an unrestricted nor an investor-plus-unrestricted scope. -/
theorem admin_scope_claim_fails :
    isAdminCheck (exDbAdminInvestor.profileFor exIdentity.id) = true ∧
    investorStatementsAdminPage (some exIdentity) exDbAdminInvestor =
      PageResult.renderAdmin ∧
    investorStatementsPage (some exIdentity) exDbAdminInvestor =
      PageResult.render [some 5] ∧
    ¬ ((none : Option Nat) ∈ [some (5 : Nat)]) := by
  decide

/-- C6 amended: every admin principal gets the admin page rendered and is
never denied the investor page; the investor page scope contains an
unrestricted list, except when the admin is also an investor with zero
memberships, in which case it is the single contact-filtered list. -/
theorem admin_always_allowed (u : Identity) (db : Database)
    (hadm : isAdminCheck (db.profileFor u.id) = true) :
    investorStatementsAdminPage (some u) db = PageResult.renderAdmin ∧
    ∃ ls, investorStatementsPage (some u) db = PageResult.render ls ∧
      ((none : Option Nat) ∈ ls ∨
        (isInvestorCheck (db.contactFor u.id) = true ∧
          (db.orgsFor u.id).length = 0 ∧
          ls = [(db.contactFor u.id).map Contact.id])) := by
  refine ⟨by simp [investorStatementsAdminPage, hadm], ?_⟩
  rw [investorStatementsPage_eq]
  cases hI : isInvestorCheck (db.contactFor u.id) with
  | false =>
    exact ⟨[none], by simp [hadm], Or.inl (by simp)⟩
  | true =>
    by_cases hL : 0 < (db.orgsFor u.id).length
    · exact ⟨[(db.contactFor u.id).map Contact.id, none,
        (db.contactFor u.id).map Contact.id],
        by simp [hadm, hL], Or.inl (by simp)⟩
    · have hL0 : (db.orgsFor u.id).length = 0 := Nat.eq_zero_of_not_pos hL
      exact ⟨[(db.contactFor u.id).map Contact.id],
        by simp [hL], Or.inr ⟨rfl, hL0, rfl⟩⟩

/-- Witness for the amended C6, at the concrete pure-admin principal. -/
theorem admin_always_allowed_witness :
    investorStatementsAdminPage (some exIdentity) exDbAdmin =
      PageResult.renderAdmin ∧
    ∃ ls, investorStatementsPage (some exIdentity) exDbAdmin =
        PageResult.render ls ∧
      ((none : Option Nat) ∈ ls ∨
        (isInvestorCheck (exDbAdmin.contactFor exIdentity.id) = true ∧
          (exDbAdmin.orgsFor exIdentity.id).length = 0 ∧
          ls = [(exDbAdmin.contactFor exIdentity.id).map Contact.id])) :=
  admin_always_allowed exIdentity exDbAdmin (by decide)

/-- C8: evaluation is total and only narrows — for every session state and
every row store, the investor page yields a sign-in redirect, a dashboard
redirect, or a rendered list set, and the admin page yields a sign-in
redirect, a dashboard redirect, or the admin component; no other outcome
(in particular no error) is reachable. -/
theorem evaluation_total (user : Option Identity) (db : Database) :
    (investorStatementsPage user db = PageResult.redirectSignIn ∨
     investorStatementsPage user db = PageResult.redirectDashboard ∨
     ∃ ls, investorStatementsPage user db = PageResult.render ls) ∧
    (investorStatementsAdminPage user db = PageResult.redirectSignIn ∨
     investorStatementsAdminPage user db = PageResult.redirectDashboard ∨
     investorStatementsAdminPage user db = PageResult.renderAdmin) := by
  constructor
  · cases user with
    | none => exact Or.inl rfl
    | some u =>
      rw [investorStatementsPage_eq]
      split_ifs
      · exact Or.inr (Or.inr ⟨_, rfl⟩)
      · exact Or.inr (Or.inr ⟨_, rfl⟩)
      · exact Or.inr (Or.inr ⟨_, rfl⟩)
      · exact Or.inr (Or.inr ⟨_, rfl⟩)
      · exact Or.inr (Or.inl rfl)
  · cases user with
    | none => exact Or.inl rfl
    | some u =>
      cases hA : isAdminCheck (db.profileFor u.id)
      · exact Or.inr (Or.inl (by simp [investorStatementsAdminPage, hA]))
      · exact Or.inr (Or.inr (by simp [investorStatementsAdminPage, hA]))

/-- C10: whenever the investor page renders a list carrying a `some`
investor id, the contact row for the principal exists and the id passed is
exactly that row's id — a contact-filtered list never arises from a
missing contact record. -/
theorem filtered_scope_has_contact_row (u : Identity) (db : Database)
    (ls : List (Option Nat)) (i : Nat)
    (hres : investorStatementsPage (some u) db = PageResult.render ls)
    (hmem : some i ∈ ls) :
    ∃ c, db.contactFor u.id = some c ∧ i = c.id := by
  rw [investorStatementsPage_eq] at hres
  split_ifs at hres
  · injection hres with h
    subst h
    simp only [List.mem_cons, List.not_mem_nil, or_false] at hmem
    rcases hmem with h | h | h
    · exact some_eq_map_contact_id i _ h
    · exact Option.noConfusion h
    · exact some_eq_map_contact_id i _ h
  · injection hres with h
    subst h
    simp only [List.mem_cons, List.not_mem_nil, or_false] at hmem
    rcases hmem with h | h
    · exact some_eq_map_contact_id i _ h
    · exact Option.noConfusion h
  · injection hres with h
    subst h
    simp only [List.mem_cons, List.not_mem_nil, or_false] at hmem
    exact some_eq_map_contact_id i _ hmem
  · injection hres with h
    subst h
    simp only [List.mem_cons, List.not_mem_nil, or_false] at hmem
    exact Option.noConfusion hmem

/-- Witness for C10, at the concrete investor principal with no
memberships whose single rendered list carries investor id 5. -/
theorem filtered_scope_has_contact_row_witness :
    ∃ c, exDbInvestorNoOrgs.contactFor exIdentity.id = some c ∧ 5 = c.id :=
  filtered_scope_has_contact_row exIdentity exDbInvestorNoOrgs [some 5] 5
    (by decide) (by decide)
